import Mathlib

/-!
Verification of the plotting helpers in `dataframe_plotter.py`.

The file shallowly embeds the pure, data-shaping part of the module:
`datetime_to_hour`, `filter_days`, the argument-normalization logic of
`dataframe_plotter` (subplot / secondary-axis expansion, sparse label
lists, the secondary-column removal step, and the `x_axis` column added
for bar plots), and the time-of-day averaging of `average_day_plotter`.

External collaborators (pandas, matplotlib, numpy) are modelled by their
documented result contracts: `DatetimeIndex.month` and
`DatetimeIndex.dayofweek` become accessors on a `Timestamp` record
(pandas `dayofweek` is Monday = 0 … Sunday = 6; 1970-01-01, day count 0,
was a Thursday), `DataFrame.groupby(k).mean()` becomes
grouping-by-key / arithmetic-mean with the result keys sorted
ascending, and Python exceptions (`ValueError` from `list.remove`,
`IndexError` from out-of-range assignment, `KeyError` from `df[col]`,
`TypeError` from `isin(str)`, …) become an explicit error type.
Rendering side effects (figure creation, the actual draw calls) are out
of scope; only their argument-validation behaviour (which column lookups
and color-list pops occur) is modelled.
-/

namespace DFPlotter

/-- A row timestamp.  `days` counts calendar days since 1970-01-01;
`month` is the calendar month as pandas' `DatetimeIndex.month` reports it
(1–12); the remaining fields are the time of day, as in Python's
`datetime`. -/
structure Timestamp where
  days : Nat
  month : Nat
  hour : Nat
  minute : Nat
  second : Nat
  microsecond : Nat
deriving DecidableEq, Repr

/-- A valid time of day, as guaranteed by Python's `datetime`:
hour 0–23, minute 0–59, second 0–59, microsecond 0–999999. -/
def Timestamp.Valid (t : Timestamp) : Prop :=
  t.hour ≤ 23 ∧ t.minute ≤ 59 ∧ t.second ≤ 59 ∧ t.microsecond ≤ 999999

instance (t : Timestamp) : Decidable t.Valid := by
  unfold Timestamp.Valid; infer_instance

/-- pandas `DatetimeIndex.dayofweek`: Monday = 0 … Sunday = 6.
1970-01-01 (`days = 0`) was a Thursday, i.e. day 3 of a Monday-first
week. -/
def Timestamp.dayofweek (t : Timestamp) : Nat := (t.days + 3) % 7

/-- Modelled from the spec: the day-of-week numbering that the spec and
the docstring of `filter_days` announce ("starting with Sunday as 0, and
Saturday as 6").  1970-01-01 (`days = 0`) was a Thursday, i.e. day 4 of
a Sunday-first week.  The source itself never computes this value — it
uses pandas' `dayofweek` — which is exactly what claim C2 is about. -/
def sunday0_dayofweek (t : Timestamp) : Nat := (t.days + 4) % 7

/-- The microseconds elapsed since midnight of the timestamp's day;
the timestamp order within one calendar day. -/
def Timestamp.tod (t : Timestamp) : Nat :=
  ((t.hour * 60 + t.minute) * 60 + t.second) * 1000000 + t.microsecond

/-- `datetime_to_hour` (dataframe_plotter.py lines 8–11): fractional hour
of the day, `hour + minute/60 + second/3600 + microsecond/(3600*1e6)`.
Python computes in floating point; the embedding uses exact rationals. -/
def datetime_to_hour (t : Timestamp) : ℚ :=
  (t.hour : ℚ) + (t.minute : ℚ) / 60 + (t.second : ℚ) / 3600
    + (t.microsecond : ℚ) / (3600 * 1000000)

/-- Python exceptions that the embedded code paths can raise. -/
inductive PyError
  | valueError
  | indexError
  | typeError
  | attributeError
  | keyError
  | zeroDivisionError
deriving DecidableEq, Repr

instance {ε α : Type} [DecidableEq ε] [DecidableEq α] : DecidableEq (Except ε α)
  | .ok a, .ok b =>
      if h : a = b then .isTrue (by rw [h]) else .isFalse (by simp [h])
  | .ok _, .error _ => .isFalse (by simp)
  | .error _, .ok _ => .isFalse (by simp)
  | .error a, .error b =>
      if h : a = b then .isTrue (by rw [h]) else .isFalse (by simp [h])

/-- The `days_of_week` argument of `filter_days`: `None`, a Python int,
a list of ints, or a string preset. -/
inductive DaysSpec
  | none
  | int (n : ℤ)
  | list (l : List ℤ)
  | str (s : String)
deriving DecidableEq, Repr

/-- Python truthiness of the `days_of_week` argument (`if days_of_week:`,
line 33): `None`, `0`, `[]` and `''` are falsy. -/
def DaysSpec.truthy : DaysSpec → Bool
  | .none => false
  | .int n => n != 0
  | .list l => !l.isEmpty
  | .str s => !s.isEmpty

/-- Lines 35–40: an int becomes a singleton list, the presets
`'weekday'`/`'wkday'` become `[0,1,2,3,4]` and `'weekend'`/`'wkend'`
become `[5,6]`, a list is passed through.  Any other string falls
through to `isin`, which raises `TypeError` for a string argument. -/
def DaysSpec.resolve : DaysSpec → Except PyError (List ℤ)
  | .int n => .ok [n]
  | .str s =>
      if s = "weekday" ∨ s = "wkday" then .ok [0, 1, 2, 3, 4]
      else if s = "weekend" ∨ s = "wkend" then .ok [5, 6]
      else .error .typeError
  | .list l => .ok l
  | .none => .ok []

/-- The `months` argument of `filter_days`: `None`, an int, or a list. -/
inductive MonthsSpec
  | none
  | int (n : ℤ)
  | list (l : List ℤ)
deriving DecidableEq, Repr

/-- Python truthiness of the `months` argument (`if months:`, line 28). -/
def MonthsSpec.truthy : MonthsSpec → Bool
  | .none => false
  | .int n => n != 0
  | .list l => !l.isEmpty

/-- Lines 29–30: an int is normalized to a singleton list. -/
def MonthsSpec.resolve : MonthsSpec → List ℤ
  | .int n => [n]
  | .list l => l
  | .none => []

/-- `filter_days` (lines 16–44).  A table or series is its list of
(index timestamp, row) pairs.  The source builds a scratch frame on the
same index, restricts it first by month (lines 28–32) and then by day of
week (lines 33–42), and returns `df_or_series.loc[df_temp.index]` — the
surviving rows, in their original order and with their original values. -/
def filter_days {α : Type} (rows : List (Timestamp × α))
    (days_of_week : DaysSpec) (months : MonthsSpec) :
    Except PyError (List (Timestamp × α)) :=
  let rows1 :=
    if months.truthy then
      rows.filter (fun p => months.resolve.contains (p.1.month : ℤ))
    else rows
  if days_of_week.truthy then
    match days_of_week.resolve with
    | .ok l => .ok (rows1.filter (fun p => l.contains (p.1.dayofweek : ℤ)))
    | .error e => .error e
  else .ok rows1

/-- Arithmetic mean of a list of values, as `groupby(...).mean()`
computes it for one group. -/
def mean (l : List ℚ) : ℚ := l.sum / (l.length : ℚ)

/-- The grouping-and-averaging performed by `average_day_plotter`
(lines 249–256): key every sample by `datetime_to_hour` of its
timestamp, then `groupby('hour').mean()` — one bucket per distinct key,
the mean of the group's values, buckets in ascending key order (pandas
`groupby` sorts the group keys). -/
def fold_average (s : List (Timestamp × ℚ)) : List (ℚ × ℚ) :=
  (List.insertionSort (· ≤ ·)
      ((s.map (fun p => (datetime_to_hour p.1, p.2))).map Prod.fst).dedup).map
    (fun h =>
      (h, mean (((s.map (fun p => (datetime_to_hour p.1, p.2))).filter
          (fun q => decide (q.1 = h))).map Prod.snd)))

/-- One chart panel of the produced figure: the columns drawn on its
left axis, the columns drawn on its right (`twinx`) axis, and its
labels.  This is the per-subplot plan that `dataframe_plotter`'s
normalization produces and its draw loop consumes. -/
structure Subplot where
  primary : List String
  secondary : List String
  title : String
  ylabel : String
  secondary_ylabel : String
deriving DecidableEq, Repr

/-- What a caller observes from a completed `dataframe_plotter` call:
the normalized plan that was drawn, and the column list of the caller's
DataFrame after the call (line 171–172 adds an `x_axis` column for bar
plots). -/
structure PlotResult where
  plan : List Subplot
  dfAfter : List String
deriving DecidableEq, Repr

/-- A `title` / `ylabel` / `secondary_ylabel` argument: a string or a
list of strings. -/
inductive StrSpec
  | str (s : String)
  | list (l : List String)
deriving DecidableEq, Repr

/-- An element of the heterogeneous Python lists that the normalization
manipulates: a plain string or a list of strings.  (`subplots` entries
and `secondary_y` entries can be either; `''` is the sparse-list
padding.) -/
inductive StrOrList
  | str (s : String)
  | list (l : List String)
deriving DecidableEq, Repr

/-- Python `len` of such an element. -/
def StrOrList.pyLen : StrOrList → Nat
  | .str s => s.length
  | .list l => l.length

/-- The in-loop coercion `if type(x) == str: x = [x]`
(lines 186–187 for subplots, 207–208 for secondary_y). -/
def StrOrList.py_wrap : StrOrList → List String
  | .str s => [s]
  | .list l => l

/-- The `subplots` argument: a boolean, a list of column names, or a
list of lists of column names. -/
inductive SubplotsSpec
  | bool (b : Bool)
  | strs (l : List String)
  | lists (ll : List (List String))
deriving DecidableEq, Repr

/-- Lines 127–130: `subplots == True` becomes one singleton sublist per
table column, in column order; `subplots == False` becomes a single
sublist holding every column; any list is passed through unchanged
(its entries are coerced one by one inside the draw loop). -/
def expandSubplots (cols : List String) : SubplotsSpec → List StrOrList
  | .bool true => cols.map (fun c => .list [c])
  | .bool false => [.list cols]
  | .strs l => l.map .str
  | .lists ll => ll.map .list

/-- The `secondary_y` argument: `False`, a string, a list of strings, or
a list of lists of strings. -/
inductive SecSpec
  | fls
  | str (s : String)
  | strs (l : List String)
  | lists (ll : List (List String))
deriving DecidableEq, Repr

/-- Lines 132–136: a string becomes `[[s]]`, `False` becomes `[[]]`, and
lists pass through (a Python list never compares equal to `False`). -/
def secInit : SecSpec → List StrOrList
  | .str s => [.list [s]]
  | .fls => [.list []]
  | .strs l => l.map .str
  | .lists ll => ll.map .list

/-- `_str_to_sparse_list` (lines 145–154, for the three label
arguments): a string is first wrapped into a singleton list; the entries
are then written into a `['']*length` buffer from index 0, so the result
is the input padded with `''` up to `length` — or an `IndexError` when
the input list is longer than `length`.  (The `list_of_lists` parameter
of the source is dead: no call site passes it.) -/
def StrSpec.asList : StrSpec → List String
  | .str s => [s]
  | .list l => l

def str_to_sparse_list (x : StrSpec) (n : Nat) : Except PyError (List String) :=
  if x.asList.length ≤ n then
    .ok (x.asList ++ List.replicate (n - x.asList.length) "")
  else .error .indexError

/-- The same sparse-fill applied to `secondary_y` in the several-subplot
branch (line 169); the buffer's padding `''` is a Python string of
length 0, so padded slots produce no secondary axis. -/
def sparse_sol (l : List StrOrList) (n : Nat) : Except PyError (List StrOrList) :=
  if l.length ≤ n then .ok (l ++ List.replicate (n - l.length) (.str ""))
  else .error .indexError

/-- The successive `subplots[0].remove(col2)` calls of lines 166–167:
Python's `list.remove` deletes the first occurrence and raises
`ValueError` when the element is absent. -/
def removeAll (l : List String) : List String → Except PyError (List String)
  | [] => .ok l
  | c :: cs => if c ∈ l then removeAll (l.erase c) cs else .error .valueError

/-- The single-subplot arm of lines 162–167: `secondary_y[0]` is read
(`IndexError` on an empty list); if it is a string the whole list is
re-wrapped (`secondary_y = [secondary_y]`, lines 164–165), so the
columns applied to subplot 0 are: `[s]` for a string argument, the
whole list for a list-of-strings argument, the first sublist for a
list-of-lists argument, nothing for `False`. -/
def secondaryForSingle : SecSpec → Except PyError (List String)
  | .str s => .ok [s]
  | .fls => .ok []
  | .strs [] => .error .indexError
  | .strs l => .ok l
  | .lists [] => .error .indexError
  | .lists (l0 :: _) => .ok l0

/-- Lines 162–167 as a whole, for `nb_plots == 1`: read the secondary
columns for subplot 0 and remove each of them from `subplots[0]`.
When `subplots[0]` is a plain string (a `subplots` argument given as a
list of names) and the removal loop has any iteration, Python raises
`AttributeError` — `str` has no `remove`.  The final catch-all arm is
unreachable: this function is only applied to a one-element list. -/
def singleBranch (subs : List StrOrList) (sec : SecSpec) :
    Except PyError (List StrOrList × List StrOrList) :=
  match secondaryForSingle sec with
  | .error e => .error e
  | .ok sec0 =>
    match subs with
    | [.list l] =>
        match removeAll l sec0 with
        | .ok l' => .ok ([.list l'], [.list sec0])
        | .error e => .error e
    | [.str s] =>
        match sec0 with
        | [] => .ok ([.str s], [.list []])
        | _ :: _ => .error .attributeError
    | _ => .error .attributeError

/-- Line 171–172: for `plot_type == 'bar'` the source assigns
`df['x_axis'] = np.arange(len(df))` on the caller's DataFrame — an
in-place mutation that appends an `x_axis` column (or overwrites an
existing one, leaving the column list unchanged). -/
def df_after (cols : List String) (plot_type : String) : List String :=
  if plot_type = "bar" then
    (if "x_axis" ∈ cols then cols else cols ++ ["x_axis"])
  else cols

/-- The draw loop's view of the normalized lists (lines 175–230): the
i-th subplot draws `subplots[i]` (string entries coerced to singletons)
on the primary axis, and — only when `len(secondary_y[i]) > 0` —
`secondary_y[i]` (coerced likewise) on a `twinx` axis, with the i-th
title and labels. -/
def buildPlan :
    List StrOrList → List StrOrList → List String → List String → List String →
    List Subplot
  | sp :: sps, sc :: scs, t :: ts, y :: ys, z :: zs =>
      { primary := sp.py_wrap
        secondary := if 0 < sc.pyLen then sc.py_wrap else []
        title := t
        ylabel := y
        secondary_ylabel := z } :: buildPlan sps scs ts ys zs
  | _, _, _, _, _ => []

/-- Every column the draw loop looks up (`df[col]`, `df[col2]`) must be
a column of the (possibly mutated) DataFrame, else `KeyError`. -/
def planColsOk (plan : List Subplot) (cols : List String) : Bool :=
  plan.all (fun sp => (sp.primary ++ sp.secondary).all (fun c => decide (c ∈ cols)))

/-- The remaining per-subplot failure modes of the draw loop, by plot
type: for `'bar'`, `width = 0.9 / len(subplots[i])` divides by zero on
an empty subplot (line 181), more than 13 primary columns exhaust the
color list popped at lines 190–196, and any secondary column reaches the
`raise` of lines 215–217; for `'overlay'`/`'average'`, the pops at
lines 190–193 (13 colors, reset per subplot) and 211–214 (6 colors)
exhaust on more than 13 primary or 6 secondary columns.  The `'line'`
path pops no colors and raises nothing. -/
def renderChecks (plan : List Subplot) (plot_type : String) :
    Except PyError Unit :=
  if plot_type = "bar" then
    if plan.any (fun sp => sp.primary.isEmpty) then .error .zeroDivisionError
    else if plan.any (fun sp => 13 < sp.primary.length) then .error .indexError
    else if plan.any (fun sp => !sp.secondary.isEmpty) then .error .typeError
    else .ok ()
  else if plot_type = "overlay" ∨ plot_type = "average" then
    if plan.any (fun sp => 13 < sp.primary.length) then .error .indexError
    else if plan.any (fun sp => 6 < sp.secondary.length) then .error .indexError
    else .ok ()
  else .ok ()

/-- `dataframe_plotter` (lines 53–234), restricted to what it computes
from its arguments: the normalized per-subplot plan and the caller's
column list after the call.  The stages follow the source's order:
expansion of `subplots` (127–130), the three sparse label lists
(156–158), the single- vs several-subplot handling of `secondary_y`
(162–169), the bar-plot `x_axis` mutation (171–172), then the draw loop
(175–230), whose rendering is external but whose column lookups and
color pops are checked.  A raised exception yields an `error`; figure
creation itself (line 161) is external and not modelled. -/
def dataframe_plotter (cols : List String) (title ylabel secondary_ylabel : StrSpec)
    (subplots : SubplotsSpec) (secondary_y : SecSpec) (plot_type : String) :
    Except PyError PlotResult :=
  match str_to_sparse_list title (expandSubplots cols subplots).length,
        str_to_sparse_list ylabel (expandSubplots cols subplots).length,
        str_to_sparse_list secondary_ylabel (expandSubplots cols subplots).length with
  | .ok titles, .ok ylabels, .ok sylabels =>
    match (if (expandSubplots cols subplots).length = 1
           then singleBranch (expandSubplots cols subplots) secondary_y
           else match sparse_sol (secInit secondary_y)
                        (expandSubplots cols subplots).length with
                | .ok secs => .ok (expandSubplots cols subplots, secs)
                | .error e => .error e) with
    | .ok (subs2, secs) =>
        if planColsOk (buildPlan subs2 secs titles ylabels sylabels)
            (df_after cols plot_type) then
          match renderChecks (buildPlan subs2 secs titles ylabels sylabels)
                  plot_type with
          | .ok _ => .ok { plan := buildPlan subs2 secs titles ylabels sylabels,
                           dfAfter := df_after cols plot_type }
          | .error e => .error e
        else .error .keyError
    | .error e => .error e
  | .error e, _, _ => .error e
  | _, .error e, _ => .error e
  | _, _, .error e => .error e

/-! ## Helper lemmas -/

theorem datetime_to_hour_eq_tod (t : Timestamp) :
    datetime_to_hour t = (t.tod : ℚ) / 3600000000 := by
  unfold datetime_to_hour Timestamp.tod
  push_cast
  ring

theorem tod_lt_day {t : Timestamp} (h : t.Valid) : t.tod < 86400000000 := by
  obtain ⟨h1, h2, h3, h4⟩ := h
  unfold Timestamp.tod
  omega

/-! ## C8 -/

/-- C8: calling `filter_days` with both selectors `None` returns the full
input unchanged — the no-selector filter is the identity on every table
or series. -/
theorem c8_filter_identity {α : Type} (rows : List (Timestamp × α)) :
    filter_days rows .none .none = .ok rows := rfl

/-! ## C6 -/

/-- C6: a falsy selector disables that filter entirely: `days_of_week=0`,
`days_of_week=[]` and `months=[]` behave exactly like an absent selector,
so in particular `filter_days(table, days_of_week=0, months=None)`
returns the full input rather than only the rows of day 0. -/
theorem c6_falsy_selectors {α : Type} (rows : List (Timestamp × α))
    (d : DaysSpec) (m : MonthsSpec) :
    filter_days rows (.int 0) m = filter_days rows .none m
    ∧ filter_days rows (.list []) m = filter_days rows .none m
    ∧ filter_days rows d (.list []) = filter_days rows d .none
    ∧ filter_days rows (.int 0) .none = .ok rows :=
  ⟨rfl, rfl, rfl, rfl⟩

/-! ## C2 -/

/-- C2 is a code bug: the docstring of `filter_days` (and the spec)
promise the 0 = Sunday … 6 = Saturday numbering for integer
`days_of_week`, but the code compares against pandas' `dayofweek`,
which numbers Monday = 0 … Sunday = 6.  Failing input: a single row on
Monday 1970-01-05 (`days = 4`) with `days_of_week = 1`.  Monday is day 1
of a Sunday-first week, so the documented behaviour keeps the row; the
code computes pandas `dayofweek = 0 ∉ {1}` and drops it. -/
theorem c2_dayofweek_convention_bug :
    sunday0_dayofweek ⟨4, 1, 0, 0, 0, 0⟩ = 1
    ∧ Timestamp.dayofweek ⟨4, 1, 0, 0, 0, 0⟩ = 0
    ∧ filter_days [(⟨4, 1, 0, 0, 0, 0⟩, (0 : ℚ))] (.int 1) .none = .ok [] := by
  decide

/-! ## C10 -/

/-- C10: `datetime_to_hour` equals
`hour + minute/60 + second/3600 + microsecond/3.6e9` by definition; for
every valid timestamp the value lies in `[0, 24)`, and within a single
calendar day it is monotonically non-decreasing in the timestamp
(ordered by time of day `tod`).  The function is total by construction:
no code path of lines 8–11 can raise. -/
theorem c10_fractional_hour (t t' : Timestamp) (h : t.Valid) (_h' : t'.Valid) :
    0 ≤ datetime_to_hour t ∧ datetime_to_hour t < 24
    ∧ (t.days = t'.days → t.tod ≤ t'.tod →
        datetime_to_hour t ≤ datetime_to_hour t') := by
  refine ⟨?_, ?_, ?_⟩
  · rw [datetime_to_hour_eq_tod]
    positivity
  · rw [datetime_to_hour_eq_tod]
    rw [div_lt_iff₀ (by norm_num : (0 : ℚ) < 3600000000)]
    have ht : (t.tod : ℚ) < 86400000000 := by exact_mod_cast tod_lt_day h
    linarith
  · intro _ hle
    rw [datetime_to_hour_eq_tod, datetime_to_hour_eq_tod]
    have : (t.tod : ℚ) ≤ (t'.tod : ℚ) := by exact_mod_cast hle
    gcongr

/-- Witness for C10 at 15:15:00 and 16:00:00 of 1970-01-01. -/
theorem c10_fractional_hour_witness :
    datetime_to_hour ⟨0, 1, 15, 15, 0, 0⟩ ≤ datetime_to_hour ⟨0, 1, 16, 0, 0, 0⟩ :=
  (c10_fractional_hour ⟨0, 1, 15, 15, 0, 0⟩ ⟨0, 1, 16, 0, 0, 0⟩
    (by decide) (by decide)).2.2 rfl (by decide)

/-! ## C7 -/

/-- C7: for any combination of selectors whose day set is recognizable
(the `.error` fall-through of `isin(str)` excluded), the filter keeps a
row iff (months disabled OR the row's month is selected) AND
(days_of_week disabled OR the row's pandas day-of-week is selected).
The result is a `List.filter` of the input, so the kept rows appear in
original order with all original values, and an empty result is an
ordinary `ok`, never an error.  ("absent" is read as Python-falsy,
matching the source's `if months:` / `if days_of_week:` guards; C6
records that reading.) -/
theorem c7_filter_characterization {α : Type} (rows : List (Timestamp × α))
    (d : DaysSpec) (m : MonthsSpec) (dl : List ℤ) (hd : d.resolve = .ok dl) :
    filter_days rows d m = .ok (rows.filter (fun p =>
      (!m.truthy || m.resolve.contains (p.1.month : ℤ))
      && (!d.truthy || dl.contains (p.1.dayofweek : ℤ)))) := by
  unfold filter_days
  cases hm : m.truthy <;> cases hdt : d.truthy <;>
    simp [hd, List.filter_filter, Bool.and_comm]

/-- Witness for C7: a February Monday and a March Saturday, filtered by
`days_of_week='weekday'` and `months=2`. -/
theorem c7_filter_characterization_witness :
    filter_days [(⟨1131, 2, 10, 30, 0, 0⟩, (1 : ℚ)), (⟨1157, 3, 12, 0, 0, 0⟩, 2)]
      (.str "weekday") (.int 2)
      = .ok [(⟨1131, 2, 10, 30, 0, 0⟩, (1 : ℚ))] :=
  (c7_filter_characterization _ (.str "weekday") (.int 2) [0, 1, 2, 3, 4]
    (by decide)).trans (by decide)

/-! ## C5 -/

/-- C5's claimed failure does not happen: `average_day_plotter` on a
series with zero samples raises nothing (there is no `EmptyInputError`
anywhere in the module); `groupby('hour').mean()` of the empty frame is
empty, and the plot call draws nothing.  The zero-sample fold is the
empty bucket sequence, not an error. -/
theorem c5_counterexample : fold_average [] = [] := rfl

theorem keyed_filter_map (s : List (Timestamp × ℚ)) (h : ℚ) :
    ((s.map (fun p => (datetime_to_hour p.1, p.2))).filter
        (fun q => decide (q.1 = h))).map Prod.snd
      = (s.filter (fun q => decide (datetime_to_hour q.1 = h))).map Prod.snd := by
  induction s with
  | nil => rfl
  | cons p s ih =>
      by_cases hp : datetime_to_hour p.1 = h
      · simp [List.filter_cons, hp, ih]
      · simp [List.filter_cons, hp, ih]

/-- C5 amended: for every series, `fold_average` emits its buckets in
strictly ascending fractional-hour order; the bucket keys are exactly
the distinct fractional hours of the samples (ties from identical
times-of-day across dates collapse); each bucket's value is the
arithmetic mean of the values sharing that exact fractional hour; and a
non-empty series yields a non-empty (error-free) result. -/
theorem c5_fold_average_amended (s : List (Timestamp × ℚ)) :
    List.Sorted (· < ·) ((fold_average s).map Prod.fst)
    ∧ ((fold_average s).map Prod.fst).Perm
        ((s.map (fun p => datetime_to_hour p.1)).dedup)
    ∧ (∀ p ∈ fold_average s,
        p.2 = mean ((s.filter
          (fun q => decide (datetime_to_hour q.1 = p.1))).map Prod.snd))
    ∧ (s ≠ [] → fold_average s ≠ []) := by
  unfold fold_average
  have hkey : (s.map (fun p => (datetime_to_hour p.1, p.2))).map Prod.fst
      = s.map (fun p => datetime_to_hour p.1) := by
    rw [List.map_map]; rfl
  rw [hkey]
  set keys := List.insertionSort (· ≤ ·)
    (s.map (fun p => datetime_to_hour p.1)).dedup with hkeys
  have hperm : keys.Perm (s.map (fun p => datetime_to_hour p.1)).dedup :=
    List.perm_insertionSort _ _
  have hfst : ((keys.map (fun h =>
      (h, mean (((s.map (fun p => (datetime_to_hour p.1, p.2))).filter
        (fun q => decide (q.1 = h))).map Prod.snd)))).map Prod.fst) = keys := by
    simp [Function.comp_def]
  refine ⟨?_, ?_, ?_, ?_⟩
  · rw [hfst]
    exact (List.sorted_insertionSort _ _).lt_of_le
      (hperm.symm.nodup (List.nodup_dedup _))
  · rw [hfst]; exact hperm
  · intro p hp
    obtain ⟨h, _, rfl⟩ := List.mem_map.1 hp
    simpa using congrArg mean (keyed_filter_map s h)
  · intro hne
    have h1 : (s.map (fun p => datetime_to_hour p.1)) ≠ [] := by
      simpa using hne
    have h2 : (s.map (fun p => datetime_to_hour p.1)).dedup ≠ [] :=
      fun h => h1 ((List.dedup_eq_nil _).1 h)
    have h3 : keys ≠ [] := by
      intro h
      rw [h] at hperm
      exact h2 hperm.symm.eq_nil
    simpa using h3

/-- Witness for C5's amended claim: a one-sample series folds to a
non-empty bucket list. -/
theorem c5_fold_average_amended_witness :
    fold_average [(⟨0, 1, 9, 0, 0, 0⟩, (2 : ℚ))] ≠ [] :=
  (c5_fold_average_amended _).2.2.2 (by decide)

/-! ## Plotter helper lemmas -/

theorem str_to_sparse_list_length {x : StrSpec} {n : Nat} {ts : List String}
    (h : str_to_sparse_list x n = .ok ts) : ts.length = n := by
  unfold str_to_sparse_list at h
  split at h
  · injection h with h
    subst h
    simp only [List.length_append, List.length_replicate]
    omega
  · cases h

theorem str_to_sparse_list_empty_str {n : Nat} (h : 1 ≤ n) :
    str_to_sparse_list (.str "") n = .ok (List.replicate n "") := by
  unfold str_to_sparse_list
  cases n with
  | zero => omega
  | succ m =>
      rw [if_pos (by simp [StrSpec.asList])]
      simp [StrSpec.asList, List.replicate_succ]

theorem sparse_sol_single {x : StrOrList} {n : Nat} (h : 1 ≤ n) :
    sparse_sol [x] n = .ok (x :: List.replicate (n - 1) (.str "")) := by
  unfold sparse_sol
  rw [if_pos (by simpa using h)]
  rfl

theorem removeAll_sublist :
    ∀ (cs : List String) (l l' : List String),
      removeAll l cs = .ok l' → l'.Sublist l := by
  intro cs
  induction cs with
  | nil =>
      intro l l' h
      injection h with h
      exact h ▸ List.Sublist.refl l
  | cons c cs ih =>
      intro l l' h
      unfold removeAll at h
      split at h
      · exact (ih _ _ h).trans (List.erase_sublist c l)
      · cases h

theorem removeAll_not_mem :
    ∀ (cs : List String) (l l' : List String),
      l.Nodup → removeAll l cs = .ok l' → ∀ c ∈ cs, c ∉ l' := by
  intro cs
  induction cs with
  | nil => intro l l' _ _ c hc; cases hc
  | cons c cs ih =>
      intro l l' hnd h d hd
      unfold removeAll at h
      split at h
      · rcases List.mem_cons.1 hd with rfl | hd'
        · intro hmem
          exact hnd.not_mem_erase ((removeAll_sublist cs _ _ h).subset hmem)
        · exact ih _ _ (hnd.erase c) h d hd'
      · cases h

/-- Destructuring a successful `dataframe_plotter` call into its
normalization stages. -/
theorem plotter_ok_destruct {cols : List String} {t y sy : StrSpec}
    {sub : SubplotsSpec} {sec : SecSpec} {pt : String} {res : PlotResult}
    (hok : dataframe_plotter cols t y sy sub sec pt = .ok res) :
    ∃ titles ylabels sylabels subs2 secs,
      str_to_sparse_list t (expandSubplots cols sub).length = .ok titles
      ∧ str_to_sparse_list y (expandSubplots cols sub).length = .ok ylabels
      ∧ str_to_sparse_list sy (expandSubplots cols sub).length = .ok sylabels
      ∧ (if (expandSubplots cols sub).length = 1
          then singleBranch (expandSubplots cols sub) sec
          else match sparse_sol (secInit sec) (expandSubplots cols sub).length with
               | .ok secs2 => .ok (expandSubplots cols sub, secs2)
               | .error e => .error e) = .ok (subs2, secs)
      ∧ res.plan = buildPlan subs2 secs titles ylabels sylabels
      ∧ res.dfAfter = df_after cols pt := by
  unfold dataframe_plotter at hok
  split at hok
  case _ titles ylabels sylabels h1 h2 h3 =>
    split at hok
    case _ subs2 secs h4 =>
      split at hok
      · split at hok
        · injection hok with hok
          subst hok
          exact ⟨titles, ylabels, sylabels, subs2, secs, h1, h2, h3, h4,
            rfl, rfl⟩
        · cases hok
      · cases hok
    case _ e h4 => cases hok
  all_goals cases hok

/-! ## C1 -/

/-- C1 fails for multi-subplot plans: the removal of secondary columns
from the primary set happens only in the `nb_plots == 1` branch
(lines 166–167).  With `subplots=[['a','b'],['c']]` and
`secondary_y=[['b'],[]]` the call succeeds and subplot 0 keeps `'b'` in
its primary set while also drawing `'b'` on its secondary axis. -/
theorem c1_counterexample :
    dataframe_plotter ["a", "b", "c"] (.str "") (.str "") (.str "")
        (.lists [["a", "b"], ["c"]]) (.lists [["b"], []]) "line"
      = .ok ⟨[⟨["a", "b"], ["b"], "", "", ""⟩, ⟨["c"], [], "", "", ""⟩],
             ["a", "b", "c"]⟩ := by
  decide

/-- C1 amended: the disjointness invariant holds exactly in the
single-subplot case — when the expanded `subplots` spec is one
duplicate-free column list and the call succeeds, every column of the
subplot's secondary set has been removed from its primary set.  (With
several subplots no removal occurs, as the counterexample shows; a
duplicated primary entry would survive a single `remove` even in the
one-subplot branch.) -/
theorem c1_amended (cols : List String) (t y sy : StrSpec) (sub : SubplotsSpec)
    (sec : SecSpec) (pt : String) (res : PlotResult) (l : List String)
    (hexp : expandSubplots cols sub = [.list l]) (hnd : l.Nodup)
    (hok : dataframe_plotter cols t y sy sub sec pt = .ok res) :
    ∀ sp ∈ res.plan, ∀ c ∈ sp.secondary, c ∉ sp.primary := by
  obtain ⟨titles, ylabels, sylabels, subs2, secs, h1, h2, h3, h4, h5, _⟩ :=
    plotter_ok_destruct hok
  rw [hexp] at h1 h2 h3 h4
  simp only [List.length_cons, List.length_nil, if_pos] at h4
  unfold singleBranch at h4
  cases hs : secondaryForSingle sec with
  | error e => rw [hs] at h4; cases h4
  | ok sec0 =>
    rw [hs] at h4
    dsimp only at h4
    cases hr : removeAll l sec0 with
    | error e => rw [hr] at h4; cases h4
    | ok l' =>
      rw [hr] at h4
      injection h4 with h4
      obtain ⟨rfl, rfl⟩ := Prod.mk.injEq .. ▸ h4
      obtain ⟨t0, rfl⟩ := List.length_eq_one.1 (str_to_sparse_list_length h1)
      obtain ⟨y0, rfl⟩ := List.length_eq_one.1 (str_to_sparse_list_length h2)
      obtain ⟨z0, rfl⟩ := List.length_eq_one.1 (str_to_sparse_list_length h3)
      intro sp hsp c hc
      rw [h5] at hsp
      simp only [buildPlan, StrOrList.pyLen, StrOrList.py_wrap] at hsp
      rcases List.mem_singleton.1 hsp with rfl
      simp only at hc ⊢
      by_cases h0 : 0 < sec0.length
      · rw [if_pos h0] at hc
        exact removeAll_not_mem sec0 l l' hnd hr c hc
      · rw [if_neg h0] at hc
        cases hc

/-- Witness for C1's amended claim: one subplot over `['a','b']` with
secondary `'b'`; the plan keeps `'b'` only on the secondary axis. -/
theorem c1_amended_witness :
    "b" ∈ (Subplot.mk ["a"] ["b"] "" "" "").secondary
    ∧ "b" ∉ (Subplot.mk ["a"] ["b"] "" "" "").primary := by
  refine ⟨by decide, ?_⟩
  exact c1_amended ["a", "b"] (.str "") (.str "") (.str "") (.bool false)
    (.str "b") "line" ⟨[⟨["a"], ["b"], "", "", ""⟩], ["a", "b"]⟩ ["a", "b"]
    rfl (by decide) (by decide) _ (by decide) _ (by decide)

/-! ## C4 -/

/-- C4 fails: a bar plot mutates the caller's DataFrame.  With
`plot_type='bar'` line 172 executes `df['x_axis'] = np.arange(len(df))`
on the caller's frame, so after the call the table has an extra
`x_axis` column. -/
theorem c4_counterexample :
    dataframe_plotter ["a"] (.str "") (.str "") (.str "") (.bool false)
        .fls "bar"
      = .ok ⟨[⟨["a"], [], "", "", ""⟩], ["a", "x_axis"]⟩
    ∧ (["a", "x_axis"] : List String) ≠ ["a"] := by
  decide

/-- C4 amended: the day/month filter and the fold are pure functions of
their inputs (no statement in their bodies writes to the argument), and
`dataframe_plotter` leaves the caller's table unchanged except when
`plot_type='bar'`, where it adds (or overwrites) the `x_axis` column:
on every successful call the caller's columns afterwards are
`df_after cols plot_type`, which equals `cols` whenever
`plot_type ≠ 'bar'`. -/
theorem c4_amended (cols : List String) (t y sy : StrSpec) (sub : SubplotsSpec)
    (sec : SecSpec) (pt : String) (res : PlotResult)
    (hok : dataframe_plotter cols t y sy sub sec pt = .ok res) :
    res.dfAfter = df_after cols pt ∧ (pt ≠ "bar" → res.dfAfter = cols) := by
  obtain ⟨_, _, _, _, _, _, _, _, _, _, h6⟩ := plotter_ok_destruct hok
  refine ⟨h6, fun hpt => ?_⟩
  rw [h6]
  unfold df_after
  rw [if_neg hpt]

/-- Witness for C4's amended claim: a line plot leaves the column list
untouched. -/
theorem c4_amended_witness :
    (PlotResult.mk [⟨["a"], [], "", "", ""⟩] ["a"]).dfAfter = ["a"] :=
  (c4_amended ["a"] (.str "") (.str "") (.str "") (.bool false) .fls "line"
    ⟨[⟨["a"], [], "", "", ""⟩], ["a"]⟩ (by decide)).2 (by decide)

/-! ## C9 -/

theorem renderChecks_line (plan : List Subplot) :
    renderChecks plan "line" = .ok () := by
  unfold renderChecks
  rw [if_neg (by decide), if_neg (by decide)]

theorem planColsOk_map_singletons (cols : List String) :
    planColsOk (cols.map (fun c => ⟨[c], [], "", "", ""⟩)) cols = true := by
  simp only [planColsOk, List.all_eq_true]
  intro sp hsp
  obtain ⟨c, hc, rfl⟩ := List.mem_map.1 hsp
  intro d hd
  simp only [List.append_nil] at hd
  rcases List.mem_singleton.1 hd with rfl
  exact decide_eq_true hc

theorem planColsOk_single_all (cols : List String) (t y z : String) :
    planColsOk [⟨cols, [], t, y, z⟩] cols = true := by
  simp only [planColsOk, List.all_eq_true]
  intro sp hsp
  rcases List.mem_singleton.1 hsp with rfl
  intro d hd
  simp only [List.append_nil] at hd
  exact decide_eq_true hd

theorem buildPlan_map_singletons (cs : List String) (ss : List StrOrList)
    (hlen : ss.length = cs.length) (h0 : ∀ x ∈ ss, x.pyLen = 0) :
    buildPlan (cs.map (fun c => StrOrList.list [c])) ss
        (List.replicate cs.length "") (List.replicate cs.length "")
        (List.replicate cs.length "")
      = cs.map (fun c => ⟨[c], [], "", "", ""⟩) := by
  induction cs generalizing ss with
  | nil =>
      cases ss with
      | nil => rfl
      | cons x xs => simp at hlen
  | cons c cs ih =>
      cases ss with
      | nil => simp at hlen
      | cons x xs =>
          have hx := h0 x (List.mem_cons_self x xs)
          simp only [List.map_cons, List.replicate_succ, buildPlan, hx,
            Nat.lt_irrefl, if_false]
          refine congrArg₂ _ rfl ?_
          exact ih xs (by simpa using hlen) (fun y hy => h0 y (List.mem_cons_of_mem x hy))

/-- The converse of `plotter_ok_destruct`: assembling a successful call
from its stages. -/
theorem plotter_build {cols : List String} {t y sy : StrSpec}
    {sub : SubplotsSpec} {sec : SecSpec} {pt : String}
    {titles ylabels sylabels : List String} {subs2 secs : List StrOrList}
    (h1 : str_to_sparse_list t (expandSubplots cols sub).length = .ok titles)
    (h2 : str_to_sparse_list y (expandSubplots cols sub).length = .ok ylabels)
    (h3 : str_to_sparse_list sy (expandSubplots cols sub).length = .ok sylabels)
    (h4 : (if (expandSubplots cols sub).length = 1
           then singleBranch (expandSubplots cols sub) sec
           else match sparse_sol (secInit sec) (expandSubplots cols sub).length with
                | .ok secs2 => .ok (expandSubplots cols sub, secs2)
                | .error e => .error e) = .ok (subs2, secs))
    (h5 : planColsOk (buildPlan subs2 secs titles ylabels sylabels)
            (df_after cols pt) = true)
    (h6 : renderChecks (buildPlan subs2 secs titles ylabels sylabels) pt = .ok ()) :
    dataframe_plotter cols t y sy sub sec pt
      = .ok ⟨buildPlan subs2 secs titles ylabels sylabels, df_after cols pt⟩ := by
  unfold dataframe_plotter
  rw [h1, h2, h3, h4]
  dsimp only
  rw [if_pos h5, h6]

/-- C9 fails on the empty table: with `subplots=True` and no columns
there are zero subplots, and `_str_to_sparse_list('', 0)` already
raises `IndexError` while building the title list (line 153), so no
plan of zero subplots is ever produced. -/
theorem c9_counterexample :
    dataframe_plotter [] (.str "") (.str "") (.str "") (.bool true) .fls "line"
      = .error .indexError := by
  decide

/-- C9 amended: for every table with at least one column,
`subplots=True` yields one subplot per column, in column order, each
with exactly that single primary column and no secondary columns, and
`subplots=False` yields a single subplot whose primary set is all
columns in order (line plot, no secondary spec). -/
theorem c9_bool_specs (cols : List String) (hne : cols ≠ []) :
    dataframe_plotter cols (.str "") (.str "") (.str "") (.bool true) .fls "line"
      = .ok ⟨cols.map (fun c => ⟨[c], [], "", "", ""⟩), cols⟩
    ∧ dataframe_plotter cols (.str "") (.str "") (.str "") (.bool false) .fls "line"
      = .ok ⟨[⟨cols, [], "", "", ""⟩], cols⟩ := by
  constructor
  · -- subplots = True
    match cols, hne with
    | [c], _ =>
        exact plotter_build
          (show str_to_sparse_list (.str "")
              (expandSubplots [c] (.bool true)).length = .ok [""] from rfl)
          (show str_to_sparse_list (.str "")
              (expandSubplots [c] (.bool true)).length = .ok [""] from rfl)
          (show str_to_sparse_list (.str "")
              (expandSubplots [c] (.bool true)).length = .ok [""] from rfl)
          (show (if (expandSubplots [c] (.bool true)).length = 1
               then singleBranch (expandSubplots [c] (.bool true)) SecSpec.fls
               else match sparse_sol (secInit SecSpec.fls)
                        (expandSubplots [c] (.bool true)).length with
                    | .ok secs2 => .ok (expandSubplots [c] (.bool true), secs2)
                    | .error e => .error e)
              = .ok ([StrOrList.list [c]], [StrOrList.list []]) from rfl)
          (planColsOk_map_singletons [c]) (renderChecks_line _)
    | c1 :: c2 :: cs, _ =>
        have hlen : (expandSubplots (c1 :: c2 :: cs) (.bool true)).length
            = cs.length + 2 := by
          simp [expandSubplots]
        have h1 : str_to_sparse_list (.str "")
            (expandSubplots (c1 :: c2 :: cs) (.bool true)).length
            = .ok (List.replicate (cs.length + 2) "") := by
          rw [hlen]
          exact str_to_sparse_list_empty_str (by omega)
        have h4 : (if (expandSubplots (c1 :: c2 :: cs) (.bool true)).length = 1
             then singleBranch (expandSubplots (c1 :: c2 :: cs) (.bool true)) .fls
             else match sparse_sol (secInit .fls)
                      (expandSubplots (c1 :: c2 :: cs) (.bool true)).length with
                  | .ok secs2 => .ok (expandSubplots (c1 :: c2 :: cs) (.bool true), secs2)
                  | .error e => .error e)
            = .ok (expandSubplots (c1 :: c2 :: cs) (.bool true),
                   StrOrList.list [] :: List.replicate (cs.length + 1) (.str "")) := by
          rw [if_neg (by rw [hlen]; omega)]
          rw [show secInit .fls = [StrOrList.list []] from rfl, hlen,
            sparse_sol_single (by omega : 1 ≤ cs.length + 2)]
          dsimp only
          norm_num
        have hbp : buildPlan ((c1 :: c2 :: cs).map (fun c => StrOrList.list [c]))
            (StrOrList.list [] :: List.replicate (cs.length + 1) (.str ""))
            (List.replicate (cs.length + 2) "") (List.replicate (cs.length + 2) "")
            (List.replicate (cs.length + 2) "")
            = (c1 :: c2 :: cs).map (fun c => ⟨[c], [], "", "", ""⟩) := by
          exact buildPlan_map_singletons (c1 :: c2 :: cs)
            (StrOrList.list [] :: List.replicate (cs.length + 1) (.str ""))
            (by simp)
            (fun x hx => by
              rcases List.mem_cons.1 hx with rfl | hx'
              · rfl
              · rcases List.eq_of_mem_replicate hx' with rfl
                rfl)
        have hchk : planColsOk
            (buildPlan (expandSubplots (c1 :: c2 :: cs) (.bool true))
              (StrOrList.list [] :: List.replicate (cs.length + 1) (.str ""))
              (List.replicate (cs.length + 2) "") (List.replicate (cs.length + 2) "")
              (List.replicate (cs.length + 2) ""))
            (df_after (c1 :: c2 :: cs) "line") = true := by
          show planColsOk
            (buildPlan ((c1 :: c2 :: cs).map (fun c => StrOrList.list [c]))
              (StrOrList.list [] :: List.replicate (cs.length + 1) (.str ""))
              (List.replicate (cs.length + 2) "") (List.replicate (cs.length + 2) "")
              (List.replicate (cs.length + 2) "")) (c1 :: c2 :: cs) = true
          rw [hbp]
          exact planColsOk_map_singletons _
        have heq := plotter_build h1 h1 h1 h4 hchk (renderChecks_line _)
        rw [heq]
        show Except.ok (PlotResult.mk (buildPlan
              ((c1 :: c2 :: cs).map (fun c => StrOrList.list [c]))
              (StrOrList.list [] :: List.replicate (cs.length + 1) (.str ""))
              (List.replicate (cs.length + 2) "") (List.replicate (cs.length + 2) "")
              (List.replicate (cs.length + 2) "")) (c1 :: c2 :: cs)) = _
        rw [hbp]
  · -- subplots = False
    exact plotter_build
      (show str_to_sparse_list (.str "")
          (expandSubplots cols (.bool false)).length = .ok [""] from rfl)
      (show str_to_sparse_list (.str "")
          (expandSubplots cols (.bool false)).length = .ok [""] from rfl)
      (show str_to_sparse_list (.str "")
          (expandSubplots cols (.bool false)).length = .ok [""] from rfl)
      (show (if (expandSubplots cols (.bool false)).length = 1
           then singleBranch (expandSubplots cols (.bool false)) SecSpec.fls
           else match sparse_sol (secInit SecSpec.fls)
                    (expandSubplots cols (.bool false)).length with
                | .ok secs2 => .ok (expandSubplots cols (.bool false), secs2)
                | .error e => .error e)
          = .ok ([StrOrList.list cols], [StrOrList.list []]) from rfl)
      (planColsOk_single_all cols "" "" "") (renderChecks_line _)

/-- Witness for C9's amended claim on the three-column table. -/
theorem c9_bool_specs_witness :
    dataframe_plotter ["a", "b", "c"] (.str "") (.str "") (.str "")
        (.bool true) .fls "line"
      = .ok ⟨[⟨["a"], [], "", "", ""⟩, ⟨["b"], [], "", "", ""⟩,
              ⟨["c"], [], "", "", ""⟩], ["a", "b", "c"]⟩ :=
  ((c9_bool_specs ["a", "b", "c"] (by decide)).1).trans (by decide)

/-! ## C3 -/

theorem sparse_sol_ok_inv {l : List StrOrList} {n : Nat} {out : List StrOrList}
    (h : sparse_sol l n = .ok out) :
    l.length ≤ n ∧ out = l ++ List.replicate (n - l.length) (.str "") := by
  unfold sparse_sol at h
  split at h
  · exact ⟨by assumption, (Except.ok.inj h).symm⟩
  · cases h

theorem buildPlan_secondary_get :
    ∀ (sps scs : List StrOrList) (ts ys zs : List String) (i : Nat) (sp : Subplot),
      (buildPlan sps scs ts ys zs)[i]? = some sp →
      ∃ sc, scs[i]? = some sc
        ∧ sp.secondary = (if 0 < sc.pyLen then sc.py_wrap else []) := by
  intro sps
  induction sps with
  | nil => intro scs ts ys zs i sp h; cases h
  | cons s sps ih =>
      intro scs ts ys zs i sp h
      cases scs with
      | nil => cases h
      | cons sc scs =>
        cases ts with
        | nil => cases h
        | cons t ts =>
          cases ys with
          | nil => cases h
          | cons y ys =>
            cases zs with
            | nil => cases h
            | cons z zs =>
              cases i with
              | zero =>
                  refine ⟨sc, List.getElem?_cons_zero, ?_⟩
                  rw [show buildPlan (s :: sps) (sc :: scs) (t :: ts) (y :: ys) (z :: zs)
                      = { primary := s.py_wrap,
                          secondary := if 0 < sc.pyLen then sc.py_wrap else [],
                          title := t, ylabel := y,
                          secondary_ylabel := z } :: buildPlan sps scs ts ys zs
                    from rfl] at h
                  rw [List.getElem?_cons_zero] at h
                  rcases Option.some.inj h with rfl
                  rfl
              | succ j =>
                  rw [show buildPlan (s :: sps) (sc :: scs) (t :: ts) (y :: ys) (z :: zs)
                      = { primary := s.py_wrap,
                          secondary := if 0 < sc.pyLen then sc.py_wrap else [],
                          title := t, ylabel := y,
                          secondary_ylabel := z } :: buildPlan sps scs ts ys zs
                    from rfl] at h
                  rw [List.getElem?_cons_succ] at h
                  obtain ⟨sc', hsc', hsec⟩ := ih scs ts ys zs j sp h
                  exact ⟨sc', by rw [List.getElem?_cons_succ]; exact hsc', hsec⟩

/-- C3 fails: no `ConfigError` exists anywhere in the module, and a
string `secondary_y` together with several subplots does not fail at
all — the sparse-list expansion of line 169 assigns it to subplot 0. -/
theorem c3_counterexample :
    dataframe_plotter ["a", "b"] (.str "") (.str "") (.str "") (.bool true)
        (.str "b") "line"
      = .ok ⟨[⟨["a"], ["b"], "", "", ""⟩, ⟨["b"], [], "", "", ""⟩],
             ["a", "b"]⟩ := by
  decide

/-- C3 amended: with more than one subplot, a single-string
`secondary_spec` does not raise: on success the plan puts that column on
subplot 0's secondary axis and gives every later subplot an empty
secondary set.  A list-of-strings `secondary_spec` likewise does not
raise: the i-th string becomes the secondary set of the i-th subplot
(an empty string and padded positions yield no secondary axis). -/
theorem c3_amended (cols : List String) (t y sy : StrSpec) (sub : SubplotsSpec)
    (pt : String) (s : String) (ls : List String) (res res' : PlotResult)
    (h2 : 2 ≤ (expandSubplots cols sub).length) :
    (dataframe_plotter cols t y sy sub (.str s) pt = .ok res →
      ∀ (i : Nat) (sp : Subplot), res.plan[i]? = some sp →
        sp.secondary = if i = 0 then [s] else [])
    ∧ (dataframe_plotter cols t y sy sub (.strs ls) pt = .ok res' →
      ∀ (i : Nat) (sp : Subplot), res'.plan[i]? = some sp →
        sp.secondary = (match ls[i]? with
          | some a => if 0 < String.length a then [a] else []
          | none => ([] : List String))) := by
  constructor
  · intro hok i sp hsp
    obtain ⟨titles, ylabels, sylabels, subs2, secs, _, _, _, h4, h5, _⟩ :=
      plotter_ok_destruct hok
    rw [if_neg (by omega)] at h4
    rw [show secInit (.str s) = [StrOrList.list [s]] from rfl,
      sparse_sol_single (by omega : 1 ≤ (expandSubplots cols sub).length)] at h4
    dsimp only at h4
    rcases Prod.mk.injEq .. ▸ Except.ok.inj h4 with ⟨rfl, rfl⟩
    rw [h5] at hsp
    obtain ⟨sc, hsc, hsec⟩ := buildPlan_secondary_get _ _ _ _ _ i sp hsp
    cases i with
    | zero =>
        rw [List.getElem?_cons_zero] at hsc
        rcases Option.some.inj hsc with rfl
        rw [hsec]
        rfl
    | succ j =>
        rw [List.getElem?_cons_succ] at hsc
        rcases List.eq_of_mem_replicate (List.getElem?_mem hsc) with rfl
        rw [hsec]
        rfl
  · intro hok i sp hsp
    obtain ⟨titles, ylabels, sylabels, subs2, secs, _, _, _, h4, h5, _⟩ :=
      plotter_ok_destruct hok
    rw [if_neg (by omega)] at h4
    rw [show secInit (.strs ls) = ls.map StrOrList.str from rfl] at h4
    cases hsp2 : sparse_sol (ls.map StrOrList.str) (expandSubplots cols sub).length with
    | error e => rw [hsp2] at h4; cases h4
    | ok secs2 =>
        rw [hsp2] at h4
        dsimp only at h4
        rcases Prod.mk.injEq .. ▸ Except.ok.inj h4 with ⟨rfl, rfl⟩
        obtain ⟨hlen, rfl⟩ := sparse_sol_ok_inv hsp2
        rw [h5] at hsp
        obtain ⟨sc, hsc, hsec⟩ := buildPlan_secondary_get _ _ _ _ _ i sp hsp
        by_cases hi : i < ls.length
        · rw [List.getElem?_append_left (by simpa using hi)] at hsc
          rw [List.getElem?_map] at hsc
          obtain ⟨a, ha, rfl⟩ : ∃ a, ls[i]? = some a ∧ sc = StrOrList.str a := by
            cases hla : ls[i]? with
            | none => rw [hla] at hsc; cases hsc
            | some a =>
                rw [hla] at hsc
                exact ⟨a, rfl, (Option.some.inj hsc).symm⟩
          rw [ha, hsec]
          rfl
        · have hnone : ls[i]? = none := List.getElem?_eq_none (by omega)
          rw [List.getElem?_append_right (by simpa using hi)] at hsc
          rcases List.eq_of_mem_replicate (List.getElem?_mem hsc) with rfl
          rw [hnone, hsec]
          rfl

/-- Witness for C3's amended claim: two subplots, `secondary_y='b'`;
subplot 0 gets `'b'` as its secondary set. -/
theorem c3_amended_witness :
    (Subplot.mk ["a"] ["b"] "" "" "").secondary
      = if (0 : Nat) = 0 then ["b"] else [] :=
  (c3_amended ["a", "b"] (.str "") (.str "") (.str "") (.bool true) "line"
      "b" [] ⟨[⟨["a"], ["b"], "", "", ""⟩, ⟨["b"], [], "", "", ""⟩], ["a", "b"]⟩
      ⟨[], []⟩ (by decide)).1 (by decide) 0 _ (by decide)

end DFPlotter
